import Mathlib

/-!
A shallow embedding of `src/telegram_api.py`, a FastAPI HTTP bridge that
forwards REST calls one-to-one to an external Telegram client (Telethon).
Pure formatting helpers are translated to Lean functions.  Handlers are
modelled as state-passing computations over a `World` that records the
sequence of external-client calls and the staged upload file; the external
client itself is an oracle (`Client`) of `Except`-valued functions, since
its behaviour is outside this repository.  Python strings are modelled over
their character lists; `str.isdigit` is modelled for ASCII digits and
`str.strip` for whitespace characters, which covers every string the
bridge actually builds.
-/

namespace Tg

/-- JSON values, for the response bodies the handlers build. -/
inductive JValue where
  | null
  | bool (b : Bool)
  | int (n : Int)
  | str (s : String)
  | arr (xs : List JValue)
  | obj (fields : List (String × JValue))

/-- An optional string field: Python `None` serialises as JSON `null`. -/
def optStr : Option String → JValue
  | none => JValue.null
  | some s => JValue.str s

/-- An optional integer field: Python `None` serialises as JSON `null`. -/
def optInt : Option Int → JValue
  | none => JValue.null
  | some n => JValue.int n

/-- Look a key up in an emitted mapping: `none` means the key is absent
from the mapping, `some JValue.null` means it is present with value null. -/
def getField (fields : List (String × JValue)) (k : String) : Option JValue :=
  (fields.find? (fun kv => kv.1 == k)).map (fun kv => kv.2)

/-- A Telethon `User`: `first_name`, `last_name`, `username` and `phone` are
optional in the TL schema (`None` when absent); `status` stands for the
type-name of the user's `UserStatus` object when one is set. -/
structure UserEnt where
  id : Int
  first_name : Option String
  last_name : Option String
  username : Option String
  phone : Option String
  status : Option String
deriving DecidableEq

/-- A Telethon `Chat` (small group): `title` is required in the TL schema. -/
structure ChatEnt where
  id : Int
  title : String
deriving DecidableEq

/-- A Telethon `Channel`: `title` is required, `username` optional. -/
structure ChannelEnt where
  id : Int
  title : String
  username : Option String
deriving DecidableEq

/-- The three entity kinds `format_entity` dispatches on with `isinstance`. -/
inductive Entity where
  | user (u : UserEnt)
  | chat (c : ChatEnt)
  | channel (c : ChannelEnt)
deriving DecidableEq

/-- The `id` attribute every entity kind carries. -/
def entityId : Entity → Int
  | Entity.user u => u.id
  | Entity.chat c => c.id
  | Entity.channel c => c.id

/-- Python `getattr(entity, "status", None)`: only `User` has a status. -/
def statusTag : Entity → Option String
  | Entity.user u => u.status
  | Entity.chat _ => none
  | Entity.channel _ => none

/-- `format_entity` of `src/telegram_api.py` (lines 41-57): the per-kind
dict, in insertion order. -/
def format_entity : Entity → List (String × JValue)
  | Entity.user u =>
      [("id", JValue.int u.id), ("type", JValue.str "user"),
       ("first_name", optStr u.first_name), ("last_name", optStr u.last_name),
       ("username", optStr u.username), ("phone", optStr u.phone)]
  | Entity.chat c =>
      [("id", JValue.int c.id), ("type", JValue.str "chat"),
       ("title", JValue.str c.title)]
  | Entity.channel c =>
      [("id", JValue.int c.id), ("type", JValue.str "channel"),
       ("title", JValue.str c.title), ("username", optStr c.username)]

/-- A Telethon `Message` as the bridge reads it: `date` stands for the
already-isoformatted timestamp when present, `message` is the body text
(possibly `None`), `reply_to` is the reply header when present (whose
`reply_to_msg_id` is itself optional), and `media` is the media object's
type-name when media is attached. -/
structure Message where
  id : Int
  date : Option String
  message : Option String
  out : Bool
  sender : Option Entity
  reply_to : Option (Option Int)
  media : Option String
deriving DecidableEq

/-- Python `str.strip()` on the strings the bridge builds. -/
def pyStrip (s : String) : String :=
  String.mk (((s.data.dropWhile Char.isWhitespace).reverse.dropWhile Char.isWhitespace).reverse)

/-- The sender block of `format_message` (lines 69-82): `first last`
stripped with fallback `"Unknown"` for a user sender, the `title` for a
group/channel sender, and `"Unknown"` with a null id when there is no
sender. -/
def sender_fields : Option Entity → List (String × JValue)
  | none => [("sender_name", JValue.str "Unknown"), ("sender_id", JValue.null)]
  | some (Entity.user u) =>
      let first := u.first_name.getD ""
      let last := u.last_name.getD ""
      let nm := pyStrip (first ++ " " ++ last)
      [("sender_name", JValue.str (if nm = "" then "Unknown" else nm)),
       ("sender_id", JValue.int u.id)]
  | some (Entity.chat c) =>
      [("sender_name", JValue.str c.title), ("sender_id", JValue.int c.id)]
  | some (Entity.channel c) =>
      [("sender_name", JValue.str c.title), ("sender_id", JValue.int c.id)]

/-- `format_message` of `src/telegram_api.py` (lines 60-95): the dict in
insertion order; `reply_to_msg_id` is only inserted when the reply header
exists and its message id is truthy, `media_type` only when media exists. -/
def format_message (m : Message) : List (String × JValue) :=
  [("id", JValue.int m.id), ("date", optStr m.date),
   ("text", optStr m.message), ("out", JValue.bool m.out)]
  ++ sender_fields m.sender
  ++ (match m.reply_to with
      | some (some n) => if n ≠ 0 then [("reply_to_msg_id", JValue.int n)] else []
      | some none => []
      | none => [])
  ++ (match m.media with
      | some t => [("has_media", JValue.bool true), ("media_type", JValue.str t)]
      | none => [("has_media", JValue.bool false)])

/-- An ASCII decimal digit; Python `str.isdigit` restricted to ASCII,
which covers every reference the bridge can receive over HTTP. -/
def isDigitChar (c : Char) : Bool := '0' ≤ c && c ≤ '9'

/-- Python `s.isdigit()`: nonempty and all digits. -/
def pyIsdigit (l : List Char) : Bool := !l.isEmpty && l.all isDigitChar

/-- Python `s.lstrip('-')`: drop every leading minus sign. -/
def pyLstripMinus : List Char → List Char
  | [] => []
  | c :: cs => if c = '-' then pyLstripMinus cs else c :: cs

/-- The numeric value of an all-digit character list. -/
def digitsToNat (l : List Char) : Nat :=
  l.foldl (fun acc c => 10 * acc + (c.toNat - Char.toNat '0')) 0

/-- The ValueError message `int()` raises on a malformed literal. -/
def intValueError : String := "invalid literal for int() with base 10"

/-- Python `int(s)` on a reference string: an optional single sign followed
by at least one digit parses, anything else raises `ValueError`. -/
def pyIntParse (l : List Char) : Except String Int :=
  match l with
  | [] => Except.error intValueError
  | c :: rest =>
    if c = '-' then
      (if pyIsdigit rest then Except.ok (-(digitsToNat rest : Int))
       else Except.error intValueError)
    else if c = '+' then
      (if pyIsdigit rest then Except.ok ((digitsToNat rest : Int))
       else Except.error intValueError)
    else if pyIsdigit l then Except.ok ((digitsToNat l : Int))
    else Except.error intValueError

/-- A `chat_id`/`user_id` path parameter, FastAPI type `Union[int, str]`. -/
inductive ChatIdParam where
  | int (n : Int)
  | str (s : String)
deriving DecidableEq

/-- What the resolver hands to `client.get_entity`: a numeric id or a
textual handle. -/
inductive EntityRef where
  | byId (n : Int)
  | byName (s : String)
deriving DecidableEq

/-- Whether the handler takes the textual-handle branch (lines 197-198 and
every copy of the pattern): a string whose `lstrip('-')` is not all digits. -/
def chooses_handle : ChatIdParam → Bool
  | ChatIdParam.str s => !(pyIsdigit (pyLstripMinus s.data))
  | ChatIdParam.int _ => false

/-- The reference the resolver passes on, with `int(chat_id)` able to raise
`ValueError` inside the numeric branch. -/
def resolve_ref : ChatIdParam → Except String EntityRef
  | ChatIdParam.str s =>
      if !(pyIsdigit (pyLstripMinus s.data)) then Except.ok (EntityRef.byName s)
      else (pyIntParse s.data).map EntityRef.byId
  | ChatIdParam.int n => Except.ok (EntityRef.byId n)

/-- The spec rule for a numeric-looking reference, on character lists: an
optional single leading minus sign followed by one or more digits. -/
def numericLookingL : List Char → Bool
  | [] => false
  | c :: rest => if c = '-' then pyIsdigit rest else pyIsdigit (c :: rest)

/-- The spec rule for a numeric-looking reference: an optional single
leading minus sign followed by one or more digits, nothing else. -/
def numericLooking (s : String) : Bool := numericLookingL s.data

/-- Substring containment of `pat` at the head of `l`. -/
def leadMatch : List Char → List Char → Bool
  | [], _ => true
  | _ :: _, [] => false
  | a :: as, b :: bs => a == b && leadMatch as bs

/-- Substring occurrence anywhere in `l` (Python `pat in s`). -/
def hasSub (pat : List Char) : List Char → Bool
  | [] => pat.isEmpty
  | c :: rest => leadMatch pat (c :: rest) || hasSub pat rest

/-- Python `pat in s` on strings. -/
def containsSub (s pat : String) : Bool := hasSub pat.data s.data

/-- Python `s.lower()` on the ASCII status tags the bridge sees. -/
def pyLower (s : String) : String := String.mk (s.data.map Char.toLower)

/-- The status-tag classifier of `get_user_status` (lines 538-549): case
analysis by substring, in the source's order, lower-casing unknown tags. -/
def parse_status (status_str : String) : String :=
  if containsSub status_str "Online" then "online"
  else if containsSub status_str "Recently" then "recently"
  else if containsSub status_str "LastWeek" then "last_week"
  else if containsSub status_str "LastMonth" then "last_month"
  else if containsSub status_str "Offline" then "offline"
  else pyLower status_str

/-- The body `/users/.../status` returns once the entity is resolved
(lines 534-551): the raw tag is the status object's type-name, defaulting
to `"Unknown"` when no status is set. -/
def status_body (e : Entity) : List (String × JValue) :=
  let status_str := (statusTag e).getD "Unknown"
  [("user_id", JValue.int (entityId e)),
   ("status", JValue.str (parse_status status_str)),
   ("raw_status", JValue.str status_str)]

/-- One call issued to the external client, with the arguments the handler
passed; an omitted keyword argument is `none`. -/
inductive ExtCall where
  | isConnected
  | getMe
  | getDialogs (limit : Int)
  | getEntity (ref : EntityRef)
  | getMessages (e : Entity) (limit : Int) (offset_id : Option Int) (search : Option String)
  | sendMessage (e : Entity) (text : String) (reply_to : Option Int)
  | sendFile (e : Entity) (caption : Option String) (voice_note : Bool)
  | editMessage (e : Entity) (msgId : Int) (text : String)
  | deleteMessages (e : Entity) (ids : List Int)
  | forwardMessages (dst : Entity) (msgId : Int) (src : Entity)
  | sendReadAck (e : Entity)
  | pinMessage (e : Entity) (msgId : Int)
  | getProfilePhotos (e : Entity) (limit : Int)
  | inlineQuery (bot : String) (q : String)
  | rawRequest (name : String)
  | disconnect
deriving DecidableEq

/-- The state a request threads: the calls issued to the external client so
far, and whether the staged upload file exists / was ever created. -/
structure World where
  trace : List ExtCall
  tempExists : Bool
  tempCreated : Bool
deriving DecidableEq

/-- A fresh request-scoped world. -/
def World.init : World := ⟨[], false, false⟩

/-- A handler computation: it may raise (Python exception, carried as the
exception's textual message) and it updates the world. -/
def HM (α : Type) : Type := World → Except String α × World

instance : Monad HM where
  pure a := fun w => (Except.ok a, w)
  bind m f := fun w =>
    match m w with
    | (Except.ok a, w') => f a w'
    | (Except.error e, w') => (Except.error e, w')

/-- Issue one external-client call: record it and return the oracle's
answer (or propagate the exception it raised). -/
def callExt {α : Type} (label : ExtCall) (r : Except String α) : HM α :=
  fun w => (r, { w with trace := w.trace ++ [label] })

/-- Raise a Python exception without touching the external client. -/
def raiseHM {α : Type} (e : String) : HM α := fun w => (Except.error e, w)

/-- `tempfile.NamedTemporaryFile(delete=False)`: the staged file appears. -/
def mkTemp : HM Unit := fun w => (Except.ok (), { w with tempExists := true, tempCreated := true })

/-- `os.unlink(tmp_path)`: the staged file is removed. -/
def clearTemp (w : World) : World := { w with tempExists := false }

/-- A `try ... finally fin` block whose finaliser is an infallible
filesystem action: `fin` runs on success and on exception alike. -/
def tryFinallyHM {α : Type} (m : HM α) (fin : World → World) : HM α :=
  fun w =>
    let r := m w
    (r.1, fin r.2)

/-- A dialog as `client.get_dialogs` yields it. -/
structure Dialog where
  entity : Entity
  unread_count : Int
  message : Option Message
deriving DecidableEq

/-- The result object of a send/edit call, as far as the bridge reads it. -/
structure SentMsg where
  id : Int
  date : Option String
deriving DecidableEq

/-- A profile photo as far as the bridge reads it. -/
structure Photo where
  id : Int
  date : Option String
deriving DecidableEq

/-- An inline GIF-query result as far as the bridge reads it. -/
structure GifEntry where
  title : Option String
  description : Option String
deriving DecidableEq

/-- The external messaging client as an oracle: what each call would
return (or the exception it would raise) for given arguments.  Its
behaviour is entirely outside this repository. -/
structure Client where
  connected : Bool
  me : Except String Entity
  dialogs : Int → Except String (List Dialog)
  entity : EntityRef → Except String Entity
  messages : Entity → Int → Option Int → Option String → Except String (List Message)
  sent : Entity → String → Option Int → Except String SentMsg
  sentFile : Entity → Option String → Bool → Except String SentMsg
  edited : Entity → Int → String → Except String SentMsg
  deleted : Entity → List Int → Except String Unit
  forwarded : Entity → Int → Entity → Except String (Option Int)
  readAck : Entity → Except String Unit
  pinned : Entity → Int → Except String Unit
  photos : Entity → Int → Except String (List Photo)
  inline : String → String → Except String (List GifEntry)
  contactsGet : Except String (List UserEnt)
  contactsSearch : String → Int → Except String (List Entity)
  reacted : Entity → Int → Bool → String → Except String Unit

/-- Identifier resolution as every handler performs it: the handle branch
or the numeric branch of `resolve_ref`, then one `get_entity` call. -/
def resolve_entity (c : Client) (p : ChatIdParam) : HM Entity :=
  match resolve_ref p with
  | Except.ok ref => callExt (ExtCall.getEntity ref) (c.entity ref)
  | Except.error e => raiseHM e

/-- An HTTP response: status code and JSON body. -/
structure HttpResponse where
  status : Nat
  body : JValue

/-- The handler boundary: a normal return is HTTP 200, a raised exception
is caught and surfaced as HTTP 500 with the exception's message as the
body's `detail` field. -/
def runHandler (m : HM JValue) (w : World) : HttpResponse × World :=
  match m w with
  | (Except.ok v, w') => (⟨200, v⟩, w')
  | (Except.error e, w') => (⟨500, JValue.obj [("detail", JValue.str e)]⟩, w')

/-- FastAPI's 422 response to a query parameter out of bounds; the handler
body never runs. -/
def val422 : HttpResponse := ⟨422, JValue.obj [("detail", JValue.str "validation error")]⟩

/-- A truthy optional-int keyword: Python `if v:` forwards the value only
when it is present and nonzero. -/
def truthyOptInt : Option Int → Option Int
  | some v => if v ≠ 0 then some v else none
  | none => none

/-- Python `s[:n]` on a string. -/
def strTake (s : String) (n : Nat) : String := String.mk (s.data.take n)

/-- Request body of POST `/chats/.../messages` and `/reply`. -/
structure SendMessageRequest where
  message : String
  reply_to : Option Int
deriving DecidableEq

/-- Request body of POST `.../reaction`. -/
structure ReactionRequest where
  emoji : String
  big : Bool
deriving DecidableEq

/-- Request body of PUT `.../messages/{id}`. -/
structure EditMessageRequest where
  new_text : String
deriving DecidableEq

/-- GET `/health` (lines 144-147). -/
def health_check (c : Client) : HM JValue := do
  let b ← callExt ExtCall.isConnected (Except.ok c.connected)
  pure (JValue.obj [("status", JValue.str "ok"), ("connected", JValue.bool b)])

/-- GET `/me` (lines 150-157). -/
def get_me (c : Client) : HM JValue := do
  let me ← callExt ExtCall.getMe c.me
  pure (JValue.obj (format_entity me))

/-- Whether a dialog's entity passes the `chat_type` filter (lines 177-183). -/
def chatTypeMatches (t : String) : Entity → Bool
  | Entity.user _ => t = "user"
  | Entity.chat _ => t = "chat"
  | Entity.channel _ => t = "channel"

/-- The `last_message` preview: the first 100 characters of the last
message's text when the dialog has a truthy one, else null (line 174). -/
def lastMessagePreview (d : Dialog) : JValue :=
  match d.message with
  | some m =>
      (match m.message with
       | some t => if t ≠ "" then JValue.str (strTake t 100) else JValue.null
       | none => JValue.null)
  | none => JValue.null

/-- One entry of the `/chats` listing (lines 171-174). -/
def dialogJson (d : Dialog) : JValue :=
  JValue.obj (format_entity d.entity
    ++ [("unread_count", JValue.int d.unread_count),
        ("last_message", lastMessagePreview d)])

/-- GET `/chats` (lines 160-189): one `get_dialogs` call, then a pure
client-side filter by `chat_type` when that parameter is truthy. -/
def get_chats (c : Client) (limit : Int) (chat_type : Option String) : HM JValue := do
  let dialogs ← callExt (ExtCall.getDialogs limit) (c.dialogs limit)
  let chats := dialogs.filterMap (fun d =>
    match chat_type with
    | some t =>
        if t ≠ "" then (if chatTypeMatches t d.entity then some (dialogJson d) else none)
        else some (dialogJson d)
    | none => some (dialogJson d))
  pure (JValue.obj [("chats", JValue.arr chats), ("count", JValue.int (chats.length : Int))])

/-- GET `/chats/.../` detail (lines 192-204). -/
def get_chat (c : Client) (p : ChatIdParam) : HM JValue := do
  let e ← resolve_entity c p
  pure (JValue.obj (format_entity e))

/-- The messages-list body shared by three endpoints (lines 227-230). -/
def messagesBody (msgs : List Message) : JValue :=
  JValue.obj [("messages", JValue.arr (msgs.map (fun m => JValue.obj (format_message m)))),
              ("count", JValue.int (msgs.length : Int))]

/-- GET `/chats/.../messages` (lines 207-232): resolve, then one
`get_messages` call whose `offset_id` keyword is passed only when truthy. -/
def get_messages (c : Client) (p : ChatIdParam) (limit : Int) (offset_id : Option Int) : HM JValue := do
  let e ← resolve_entity c p
  let msgs ← callExt (ExtCall.getMessages e limit (truthyOptInt offset_id) none)
    (c.messages e limit (truthyOptInt offset_id) none)
  pure (messagesBody msgs)

/-- The endpoint around `get_messages`: FastAPI validates `le=100` before
the handler body runs (line 210). -/
def get_messages_endpoint (c : Client) (p : ChatIdParam) (limit : Int)
    (offset_id : Option Int) (w : World) : HttpResponse × World :=
  if limit ≤ 100 then runHandler (get_messages c p limit offset_id) w
  else (val422, w)

/-- POST `/chats/.../messages` (lines 235-257): resolve, then one
`send_message` call whose `reply_to` keyword is passed only when truthy. -/
def send_message (c : Client) (p : ChatIdParam) (req : SendMessageRequest) : HM JValue := do
  let e ← resolve_entity c p
  let res ← callExt (ExtCall.sendMessage e req.message (truthyOptInt req.reply_to))
    (c.sent e req.message (truthyOptInt req.reply_to))
  pure (JValue.obj [("success", JValue.bool true), ("message_id", JValue.int res.id),
                    ("date", optStr res.date)])

/-- POST `/chats/.../files` (lines 260-303): resolve, stage the upload to a
temporary file, send it, and unlink the staged file in a `finally` block. -/
def send_file (c : Client) (p : ChatIdParam) (caption : Option String) (voice_note : Bool) : HM JValue := do
  let e ← resolve_entity c p
  mkTemp
  tryFinallyHM (do
      let res ← callExt (ExtCall.sendFile e caption voice_note) (c.sentFile e caption voice_note)
      pure (JValue.obj [("success", JValue.bool true), ("message_id", JValue.int res.id),
                        ("date", optStr res.date)]))
    clearTemp

/-- One entry of a contacts listing (lines 314-320). -/
def contactJson (u : UserEnt) : JValue :=
  JValue.obj [("id", JValue.int u.id), ("first_name", optStr u.first_name),
              ("last_name", optStr u.last_name), ("username", optStr u.username),
              ("phone", optStr u.phone)]

/-- GET `/contacts` (lines 306-324): one raw `contacts.GetContacts` call. -/
def get_contacts (c : Client) : HM JValue := do
  let users ← callExt (ExtCall.rawRequest "contacts.GetContacts") c.contactsGet
  pure (JValue.obj [("contacts", JValue.arr (users.map contactJson)),
                    ("count", JValue.int (users.length : Int))])

/-- GET `/contacts/search` (lines 327-346): one raw `contacts.Search` call,
keeping only the `User` results. -/
def search_contacts (c : Client) (q : String) : HM JValue := do
  let res ← callExt (ExtCall.rawRequest "contacts.Search") (c.contactsSearch q 20)
  let users := res.filterMap (fun e =>
    match e with
    | Entity.user u => some u
    | _ => none)
  pure (JValue.obj [("contacts", JValue.arr (users.map contactJson)),
                    ("count", JValue.int (users.length : Int))])

/-- GET `/chats/.../history` (lines 360-375): resolve, then one
`get_messages` call with only a limit. -/
def get_history (c : Client) (p : ChatIdParam) (limit : Int) : HM JValue := do
  let e ← resolve_entity c p
  let msgs ← callExt (ExtCall.getMessages e limit none none) (c.messages e limit none none)
  pure (messagesBody msgs)

/-- POST `.../reaction` (lines 378-398): resolve, then one raw
`messages.SendReaction` call. -/
def send_reaction (c : Client) (p : ChatIdParam) (msgId : Int) (req : ReactionRequest) : HM JValue := do
  let e ← resolve_entity c p
  let _ ← callExt (ExtCall.rawRequest "messages.SendReaction") (c.reacted e msgId req.big req.emoji)
  pure (JValue.obj [("success", JValue.bool true), ("emoji", JValue.str req.emoji)])

/-- POST `.../reply` (lines 401-418): resolve, then one `send_message`
call whose `reply_to` is always the path's message id. -/
def reply_to_message (c : Client) (p : ChatIdParam) (msgId : Int) (req : SendMessageRequest) : HM JValue := do
  let e ← resolve_entity c p
  let res ← callExt (ExtCall.sendMessage e req.message (some msgId)) (c.sent e req.message (some msgId))
  pure (JValue.obj [("success", JValue.bool true), ("message_id", JValue.int res.id),
                    ("date", optStr res.date)])

/-- PUT `.../messages/{id}` (lines 421-434). -/
def edit_message (c : Client) (p : ChatIdParam) (msgId : Int) (req : EditMessageRequest) : HM JValue := do
  let e ← resolve_entity c p
  let res ← callExt (ExtCall.editMessage e msgId req.new_text) (c.edited e msgId req.new_text)
  pure (JValue.obj [("success", JValue.bool true), ("message_id", JValue.int res.id)])

/-- DELETE `.../messages/{id}` (lines 437-450). -/
def delete_message (c : Client) (p : ChatIdParam) (msgId : Int) : HM JValue := do
  let e ← resolve_entity c p
  let _ ← callExt (ExtCall.deleteMessages e [msgId]) (c.deleted e [msgId])
  pure (JValue.obj [("success", JValue.bool true)])

/-- POST `.../forward` (lines 453-471): two resolutions, one forward call. -/
def forward_message (c : Client) (p : ChatIdParam) (msgId : Int) (toP : ChatIdParam) : HM JValue := do
  let src ← resolve_entity c p
  let dst ← resolve_entity c toP
  let fres ← callExt (ExtCall.forwardMessages dst msgId src) (c.forwarded dst msgId src)
  pure (JValue.obj [("success", JValue.bool true), ("message_id", optInt fres)])

/-- POST `.../read` (lines 474-487). -/
def mark_as_read (c : Client) (p : ChatIdParam) : HM JValue := do
  let e ← resolve_entity c p
  let _ ← callExt (ExtCall.sendReadAck e) (c.readAck e)
  pure (JValue.obj [("success", JValue.bool true)])

/-- POST `.../pin` (lines 490-503). -/
def pin_message (c : Client) (p : ChatIdParam) (msgId : Int) : HM JValue := do
  let e ← resolve_entity c p
  let _ ← callExt (ExtCall.pinMessage e msgId) (c.pinned e msgId)
  pure (JValue.obj [("success", JValue.bool true)])

/-- GET `.../search` (lines 506-522): resolve, then one `get_messages`
call with a search text. -/
def search_messages (c : Client) (p : ChatIdParam) (q : String) (limit : Int) : HM JValue := do
  let e ← resolve_entity c p
  let msgs ← callExt (ExtCall.getMessages e limit none (some q)) (c.messages e limit none (some q))
  pure (messagesBody msgs)

/-- GET `/users/.../status` (lines 525-553): resolve, then a pure mapping
of the status tag. -/
def get_user_status (c : Client) (p : ChatIdParam) : HM JValue := do
  let e ← resolve_entity c p
  pure (JValue.obj (status_body e))

/-- GET `/users/.../photos` (lines 556-572). -/
def get_user_photos (c : Client) (p : ChatIdParam) (limit : Int) : HM JValue := do
  let e ← resolve_entity c p
  let photos ← callExt (ExtCall.getProfilePhotos e limit) (c.photos e limit)
  pure (JValue.obj [("photos", JValue.arr (photos.map (fun ph =>
          JValue.obj [("id", JValue.int ph.id), ("date", optStr ph.date)]))),
        ("count", JValue.int (photos.length : Int))])

/-- GET `/gifs/search` (lines 575-595): one inline query against `@gif`,
enumerated with positional indices, cut off at `limit`. -/
def search_gifs (c : Client) (q : String) (limit : Int) : HM JValue := do
  let res ← callExt (ExtCall.inlineQuery "@gif" q) (c.inline "@gif" q)
  let gifs := (res.take limit.toNat).enum.map (fun pr =>
    JValue.obj [("id", JValue.int (pr.1 : Int)), ("title", optStr pr.2.title),
                ("description", optStr pr.2.description)])
  pure (JValue.obj [("gifs", JValue.arr gifs), ("count", JValue.int (gifs.length : Int))])

/-- The `lifespan` shutdown step (line 113): the only place the bridge ever
closes the external client. -/
def lifespan_shutdown : HM Unit :=
  callExt ExtCall.disconnect (Except.ok ())

/-! ## Reasoning infrastructure -/

theorem hm_bind_apply {α β : Type} (m : HM α) (f : α → HM β) (w : World) :
    (m >>= f) w = match m w with
      | (Except.ok a, w') => f a w'
      | (Except.error e, w') => (Except.error e, w') := rfl

theorem hm_pure_apply {α : Type} (a : α) (w : World) :
    (pure a : HM α) w = (Except.ok a, w) := rfl

/-- `m` adds at most `n` entries to the external-call trace and never a
`disconnect`, whatever the oracle answers. -/
def TraceBound {α : Type} (m : HM α) (n : Nat) : Prop :=
  ∀ w, ∃ extra, ((m w).2).trace = w.trace ++ extra ∧
    extra.length ≤ n ∧ ExtCall.disconnect ∉ extra

theorem tb_pure {α : Type} (a : α) : TraceBound (pure a : HM α) 0 := by
  intro w
  exact ⟨[], by simp [hm_pure_apply], by simp, by simp⟩

theorem tb_raise {α : Type} (e : String) : TraceBound (raiseHM e : HM α) 0 := by
  intro w
  exact ⟨[], by simp [raiseHM], by simp, by simp⟩

theorem tb_callExt {α : Type} (l : ExtCall) (r : Except String α)
    (h : l ≠ ExtCall.disconnect) : TraceBound (callExt l r) 1 := by
  intro w
  refine ⟨[l], rfl, by simp, ?_⟩
  intro hm
  simp at hm
  exact h hm.symm

theorem tb_bind {α β : Type} {m : HM α} {f : α → HM β} {n k : Nat}
    (hm : TraceBound m n) (hf : ∀ a, TraceBound (f a) k) :
    TraceBound (m >>= f) (n + k) := by
  intro w
  obtain ⟨e1, h1, l1, d1⟩ := hm w
  rcases hmw : m w with ⟨r, w1⟩
  rw [hmw] at h1
  cases r with
  | ok a =>
      obtain ⟨e2, h2, l2, d2⟩ := hf a w1
      have hstep : (m >>= f) w = f a w1 := by rw [hm_bind_apply, hmw]
      refine ⟨e1 ++ e2, ?_, ?_, ?_⟩
      · rw [hstep, h2, h1, List.append_assoc]
      · rw [List.length_append]
        exact Nat.add_le_add l1 l2
      · intro hd
        rcases List.mem_append.mp hd with hx | hx
        · exact d1 hx
        · exact d2 hx
  | error e =>
      have hstep : (m >>= f) w = (Except.error e, w1) := by rw [hm_bind_apply, hmw]
      refine ⟨e1, ?_, Nat.le_trans l1 (Nat.le_add_right n k), d1⟩
      rw [hstep]
      exact h1

theorem tb_mono {α : Type} {m : HM α} {n k : Nat} (h : TraceBound m n) (hnk : n ≤ k) :
    TraceBound m k := by
  intro w
  obtain ⟨e1, h1, l1, d1⟩ := h w
  exact ⟨e1, h1, Nat.le_trans l1 hnk, d1⟩

theorem tb_mkTemp : TraceBound mkTemp 0 := by
  intro w
  exact ⟨[], by simp [mkTemp], by simp, by simp⟩

theorem tb_tryFinally {α : Type} {m : HM α} {n : Nat} (hm : TraceBound m n) :
    TraceBound (tryFinallyHM m clearTemp) n := by
  intro w
  obtain ⟨e1, h1, l1, d1⟩ := hm w
  exact ⟨e1, h1, l1, d1⟩

theorem tb_resolve (c : Client) (p : ChatIdParam) : TraceBound (resolve_entity c p) 1 := by
  unfold resolve_entity
  cases hr : resolve_ref p with
  | ok ref => exact tb_callExt _ _ (fun h => ExtCall.noConfusion h)
  | error e => exact tb_mono (tb_raise e) (Nat.zero_le 1)

/-- `m` never closes the external client connection. -/
def NoDisconnect {α : Type} (m : HM α) : Prop :=
  ∀ w, ExtCall.disconnect ∉ w.trace → ExtCall.disconnect ∉ ((m w).2).trace

theorem noDisc_of_tb {α : Type} {m : HM α} {n : Nat} (h : TraceBound m n) :
    NoDisconnect m := by
  intro w hw
  obtain ⟨extra, he, _, hd⟩ := h w
  rw [he]
  intro hmem
  rcases List.mem_append.mp hmem with h1 | h2
  · exact hw h1
  · exact hd h2

/-- Every exception a handler raises surfaces as HTTP 500 whose `detail`
field is exactly the exception's message. -/
def Handler500 (m : HM JValue) : Prop :=
  ∀ w e, (m w).1 = Except.error e →
    (runHandler m w).1 = ⟨500, JValue.obj [("detail", JValue.str e)]⟩

theorem handler500_all (m : HM JValue) : Handler500 m := by
  intro w e h
  rcases hm : m w with ⟨r, w1⟩
  rw [hm] at h
  cases r with
  | ok v => simp at h
  | error e2 =>
      simp at h
      subst h
      unfold runHandler
      rw [hm]

theorem tb_health (c : Client) : TraceBound (health_check c) 1 :=
  tb_bind (tb_callExt _ _ (fun h => ExtCall.noConfusion h)) (fun _ => tb_pure _)

theorem tb_get_me (c : Client) : TraceBound (get_me c) 1 :=
  tb_bind (tb_callExt _ _ (fun h => ExtCall.noConfusion h)) (fun _ => tb_pure _)

theorem tb_get_chats (c : Client) (limit : Int) (ct : Option String) :
    TraceBound (get_chats c limit ct) 1 :=
  tb_bind (tb_callExt _ _ (fun h => ExtCall.noConfusion h)) (fun _ => tb_pure _)

theorem tb_get_chat (c : Client) (p : ChatIdParam) : TraceBound (get_chat c p) 1 :=
  tb_bind (tb_resolve c p) (fun _ => tb_pure _)

theorem tb_get_messages (c : Client) (p : ChatIdParam) (limit : Int) (off : Option Int) :
    TraceBound (get_messages c p limit off) 2 :=
  tb_bind (tb_resolve c p)
    (fun _ => tb_bind (tb_callExt _ _ (fun h => ExtCall.noConfusion h)) (fun _ => tb_pure _))

theorem tb_send_message (c : Client) (p : ChatIdParam) (req : SendMessageRequest) :
    TraceBound (send_message c p req) 2 :=
  tb_bind (tb_resolve c p)
    (fun _ => tb_bind (tb_callExt _ _ (fun h => ExtCall.noConfusion h)) (fun _ => tb_pure _))

theorem tb_send_file (c : Client) (p : ChatIdParam) (cap : Option String) (v : Bool) :
    TraceBound (send_file c p cap v) 2 :=
  tb_bind (tb_resolve c p)
    (fun _ => tb_bind tb_mkTemp
      (fun _ => tb_tryFinally
        (tb_bind (tb_callExt _ _ (fun h => ExtCall.noConfusion h)) (fun _ => tb_pure _))))

theorem tb_get_contacts (c : Client) : TraceBound (get_contacts c) 1 :=
  tb_bind (tb_callExt _ _ (fun h => ExtCall.noConfusion h)) (fun _ => tb_pure _)

theorem tb_search_contacts (c : Client) (q : String) : TraceBound (search_contacts c q) 1 :=
  tb_bind (tb_callExt _ _ (fun h => ExtCall.noConfusion h)) (fun _ => tb_pure _)

theorem tb_get_history (c : Client) (p : ChatIdParam) (limit : Int) :
    TraceBound (get_history c p limit) 2 :=
  tb_bind (tb_resolve c p)
    (fun _ => tb_bind (tb_callExt _ _ (fun h => ExtCall.noConfusion h)) (fun _ => tb_pure _))

theorem tb_send_reaction (c : Client) (p : ChatIdParam) (mid : Int) (req : ReactionRequest) :
    TraceBound (send_reaction c p mid req) 2 :=
  tb_bind (tb_resolve c p)
    (fun _ => tb_bind (tb_callExt _ _ (fun h => ExtCall.noConfusion h)) (fun _ => tb_pure _))

theorem tb_reply (c : Client) (p : ChatIdParam) (mid : Int) (req : SendMessageRequest) :
    TraceBound (reply_to_message c p mid req) 2 :=
  tb_bind (tb_resolve c p)
    (fun _ => tb_bind (tb_callExt _ _ (fun h => ExtCall.noConfusion h)) (fun _ => tb_pure _))

theorem tb_edit (c : Client) (p : ChatIdParam) (mid : Int) (req : EditMessageRequest) :
    TraceBound (edit_message c p mid req) 2 :=
  tb_bind (tb_resolve c p)
    (fun _ => tb_bind (tb_callExt _ _ (fun h => ExtCall.noConfusion h)) (fun _ => tb_pure _))

theorem tb_delete (c : Client) (p : ChatIdParam) (mid : Int) :
    TraceBound (delete_message c p mid) 2 :=
  tb_bind (tb_resolve c p)
    (fun _ => tb_bind (tb_callExt _ _ (fun h => ExtCall.noConfusion h)) (fun _ => tb_pure _))

theorem tb_forward (c : Client) (p : ChatIdParam) (mid : Int) (toP : ChatIdParam) :
    TraceBound (forward_message c p mid toP) 3 :=
  tb_bind (tb_resolve c p)
    (fun _ => tb_bind (tb_resolve c toP)
      (fun _ => tb_bind (tb_callExt _ _ (fun h => ExtCall.noConfusion h)) (fun _ => tb_pure _)))

theorem tb_mark_read (c : Client) (p : ChatIdParam) : TraceBound (mark_as_read c p) 2 :=
  tb_bind (tb_resolve c p)
    (fun _ => tb_bind (tb_callExt _ _ (fun h => ExtCall.noConfusion h)) (fun _ => tb_pure _))

theorem tb_pin (c : Client) (p : ChatIdParam) (mid : Int) : TraceBound (pin_message c p mid) 2 :=
  tb_bind (tb_resolve c p)
    (fun _ => tb_bind (tb_callExt _ _ (fun h => ExtCall.noConfusion h)) (fun _ => tb_pure _))

theorem tb_search_messages (c : Client) (p : ChatIdParam) (q : String) (limit : Int) :
    TraceBound (search_messages c p q limit) 2 :=
  tb_bind (tb_resolve c p)
    (fun _ => tb_bind (tb_callExt _ _ (fun h => ExtCall.noConfusion h)) (fun _ => tb_pure _))

theorem tb_get_user_status (c : Client) (p : ChatIdParam) :
    TraceBound (get_user_status c p) 1 :=
  tb_bind (tb_resolve c p) (fun _ => tb_pure _)

theorem tb_get_user_photos (c : Client) (p : ChatIdParam) (limit : Int) :
    TraceBound (get_user_photos c p limit) 2 :=
  tb_bind (tb_resolve c p)
    (fun _ => tb_bind (tb_callExt _ _ (fun h => ExtCall.noConfusion h)) (fun _ => tb_pure _))

theorem tb_search_gifs (c : Client) (q : String) (limit : Int) :
    TraceBound (search_gifs c q limit) 1 :=
  tb_bind (tb_callExt _ _ (fun h => ExtCall.noConfusion h)) (fun _ => tb_pure _)

/-- A sample user for concrete runs. -/
def demoUser : UserEnt := ⟨1, some "Ada", none, some "ada", none, none⟩

/-- A sample entity for concrete runs. -/
def demoEntity : Entity := Entity.user demoUser

/-- An oracle on which every external call succeeds. -/
def okClient : Client where
  connected := true
  me := Except.ok demoEntity
  dialogs := fun _ => Except.ok []
  entity := fun _ => Except.ok demoEntity
  messages := fun _ _ _ _ => Except.ok []
  sent := fun _ _ _ => Except.ok ⟨100, some "2024-01-01T00:00:00"⟩
  sentFile := fun _ _ _ => Except.ok ⟨101, none⟩
  edited := fun _ _ _ => Except.ok ⟨102, none⟩
  deleted := fun _ _ => Except.ok ()
  forwarded := fun _ _ _ => Except.ok (some 103)
  readAck := fun _ => Except.ok ()
  pinned := fun _ _ => Except.ok ()
  photos := fun _ _ => Except.ok []
  inline := fun _ _ => Except.ok []
  contactsGet := Except.ok []
  contactsSearch := fun _ _ => Except.ok []
  reacted := fun _ _ _ _ => Except.ok ()

/-- An oracle on which `get_me` and every resolution raise a flood-wait
error, for exercising the error path. -/
def failingClient : Client :=
  { okClient with
    me := Except.error "FloodWaitError: wait of 42 seconds",
    entity := fun _ => Except.error "FloodWaitError: wait of 42 seconds" }

theorem getField_append (l1 l2 : List (String × JValue)) (k : String) :
    getField (l1 ++ l2) k =
      (match getField l1 k with
       | some v => some v
       | none => getField l2 k) := by
  induction l1 with
  | nil => simp [getField]
  | cons a l ih =>
      by_cases h : a.1 == k
      · simp [getField, List.find?, h]
      · simp only [List.cons_append, getField, List.find?, h] at ih ⊢
        exact ih

/-! ## Facts about the resolver's string scan -/

theorem isDigit_ne_minus {c : Char} (h : isDigitChar c = true) : c ≠ '-' := by
  intro hEq
  subst hEq
  exact absurd h (by decide)

theorem pyLstrip_of_digits {l : List Char} (h : pyIsdigit l = true) :
    pyLstripMinus l = l := by
  cases l with
  | nil => simp [pyIsdigit] at h
  | cons c cs =>
      have hc : isDigitChar c = true := by
        simp [pyIsdigit, List.all_cons] at h
        exact h.1
      simp [pyLstripMinus, isDigit_ne_minus hc]

theorem pyLstrip_replicate (k : Nat) (l : List Char) :
    pyLstripMinus (List.replicate k '-' ++ l) = pyLstripMinus l := by
  induction k with
  | zero => simp
  | succ k ih => simp [List.replicate_succ, pyLstripMinus, ih]

theorem chooses_handle_str (s : String) :
    chooses_handle (ChatIdParam.str s) = !(pyIsdigit (pyLstripMinus s.data)) := rfl

theorem resolve_ref_str (s : String) :
    resolve_ref (ChatIdParam.str s) =
      if !(pyIsdigit (pyLstripMinus s.data)) then Except.ok (EntityRef.byName s)
      else (pyIntParse s.data).map EntityRef.byId := rfl

/-- C1, amended: the code's numeric branch is taken exactly when stripping
every leading minus sign leaves a nonempty all-digit string.  On a
numeric-looking reference (at most one leading minus) that branch is taken
and `int()` succeeds; but a reference with two or more leading minus signs
before digits is also sent to the numeric branch, where `int()` raises
`ValueError` instead of the reference being resolved as a handle. -/
theorem C1_numeric_resolution_rule :
    (∀ s : String, numericLooking s = true →
      chooses_handle (ChatIdParam.str s) = false ∧
      ∃ n : Int, resolve_ref (ChatIdParam.str s) = Except.ok (EntityRef.byId n)) ∧
    (∀ ds : List Char, pyIsdigit ds = true → ∀ k : Nat, 2 ≤ k →
      chooses_handle (ChatIdParam.str (String.mk (List.replicate k '-' ++ ds))) = false ∧
      resolve_ref (ChatIdParam.str (String.mk (List.replicate k '-' ++ ds))) =
        Except.error intValueError) := by
  constructor
  · intro s hs
    unfold numericLooking at hs
    rcases hd : s.data with _ | ⟨c, rest⟩ <;> rw [hd] at hs
    · simp [numericLookingL] at hs
    · simp only [numericLookingL] at hs
      by_cases hc : c = '-'
      · rw [if_pos hc] at hs
        subst hc
        have h1 : pyLstripMinus ('-' :: rest) = rest := by
          simp [pyLstripMinus, pyLstrip_of_digits hs]
        constructor
        · rw [chooses_handle_str, hd, h1, hs]
          rfl
        · refine ⟨-(digitsToNat rest : Int), ?_⟩
          rw [resolve_ref_str, hd, h1, hs]
          simp [pyIntParse, hs, Except.map]
      · rw [if_neg hc] at hs
        have hcd : isDigitChar c = true := by
          simp [pyIsdigit, List.all_cons] at hs
          exact hs.1
        have hcp : c ≠ '+' := by
          intro hEq
          subst hEq
          exact absurd hcd (by decide)
        constructor
        · rw [chooses_handle_str, hd, pyLstrip_of_digits hs, hs]
          rfl
        · refine ⟨(digitsToNat (c :: rest) : Int), ?_⟩
          rw [resolve_ref_str, hd, pyLstrip_of_digits hs, hs]
          simp [pyIntParse, hc, hcp, hs, Except.map]
  · intro ds hds k hk
    obtain ⟨k2, rfl⟩ : ∃ k2, k = k2 + 2 := ⟨k - 2, by omega⟩
    have hdata : (String.mk (List.replicate (k2 + 2) '-' ++ ds)).data
        = List.replicate (k2 + 2) '-' ++ ds := rfl
    have hstrip : pyLstripMinus (List.replicate (k2 + 2) '-' ++ ds) = ds := by
      rw [pyLstrip_replicate, pyLstrip_of_digits hds]
    have hshape : List.replicate (k2 + 2) '-' ++ ds
        = '-' :: ('-' :: (List.replicate k2 '-' ++ ds)) := by
      simp [List.replicate_succ, List.replicate_add]
    have hrestNotDigits : pyIsdigit ('-' :: (List.replicate k2 '-' ++ ds)) = false := by
      simp [pyIsdigit, List.all_cons]
      intro h
      exact absurd h (by decide)
    constructor
    · rw [chooses_handle_str, hdata, hstrip, hds]
      rfl
    · rw [resolve_ref_str, hdata, hstrip, hds, hshape]
      simp [pyIntParse, hrestNotDigits, Except.map]

/-- C1, counterexample: the reference `"--12"` is not numeric-looking under
the spec rule (a single optional minus), yet the code classifies it into
the numeric branch, where `int("--12")` raises. -/
theorem C1_counterexample :
    numericLooking "--12" = false ∧
    chooses_handle (ChatIdParam.str "--12") = false ∧
    resolve_ref (ChatIdParam.str "--12") = Except.error intValueError := by
  refine ⟨rfl, rfl, rfl⟩

/-- C1, witness: the numeric-looking reference `"-42"` takes the numeric
branch and resolves to the id `-42`. -/
theorem C1_witness :
    chooses_handle (ChatIdParam.str "-42") = false ∧
    resolve_ref (ChatIdParam.str "-42") = Except.ok (EntityRef.byId (-42)) := by
  have h := C1_numeric_resolution_rule.1 "-42" (by decide)
  exact ⟨h.1, rfl⟩

/-! ## Claims about the pure normalizers -/

/-- C3, amended: the kind tag `format_entity` emits is an element of
`{user, chat, channel}` — a group (`Chat`) entity is tagged `"chat"`, not
`"group"` — with id and names/username/phone for a user, id and title for
a group, and id, title and username for a channel. -/
theorem C3_kind_tags :
    (∀ e : Entity, ∃ t, getField (format_entity e) "type" = some (JValue.str t) ∧
        (t = "user" ∨ t = "chat" ∨ t = "channel")) ∧
    (∀ u : UserEnt,
      getField (format_entity (Entity.user u)) "type" = some (JValue.str "user") ∧
      getField (format_entity (Entity.user u)) "id" = some (JValue.int u.id) ∧
      getField (format_entity (Entity.user u)) "first_name" = some (optStr u.first_name) ∧
      getField (format_entity (Entity.user u)) "last_name" = some (optStr u.last_name) ∧
      getField (format_entity (Entity.user u)) "username" = some (optStr u.username) ∧
      getField (format_entity (Entity.user u)) "phone" = some (optStr u.phone)) ∧
    (∀ ch : ChatEnt,
      getField (format_entity (Entity.chat ch)) "type" = some (JValue.str "chat") ∧
      getField (format_entity (Entity.chat ch)) "title" = some (JValue.str ch.title)) ∧
    (∀ cn : ChannelEnt,
      getField (format_entity (Entity.channel cn)) "type" = some (JValue.str "channel") ∧
      getField (format_entity (Entity.channel cn)) "title" = some (JValue.str cn.title) ∧
      getField (format_entity (Entity.channel cn)) "username" = some (optStr cn.username)) := by
  refine ⟨?_, fun u => ⟨rfl, rfl, rfl, rfl, rfl, rfl⟩, fun ch => ⟨rfl, rfl⟩,
    fun cn => ⟨rfl, rfl, rfl⟩⟩
  intro e
  cases e with
  | user u => exact ⟨"user", rfl, Or.inl rfl⟩
  | chat ch => exact ⟨"chat", rfl, Or.inr (Or.inl rfl)⟩
  | channel cn => exact ⟨"channel", rfl, Or.inr (Or.inr rfl)⟩

/-- C3, counterexample: a group (`Chat`) entity is tagged `"chat"`, which
is not the claimed `"group"` and not an element of `{user, group, channel}`. -/
theorem C3_counterexample :
    getField (format_entity (Entity.chat ⟨7, "Friends"⟩)) "type" = some (JValue.str "chat") ∧
    ("chat" : String) ≠ "group" ∧
    ¬("chat" = "user" ∨ ("chat" : String) = "group" ∨ ("chat" : String) = "channel") := by
  exact ⟨rfl, by decide, by decide⟩

/-- C4, amended: `format_entity` emits every absent optional field as null
(present with value null), and so does `format_message` for `date`, `text`
and the sender fields; but `format_message` omits `reply_to_msg_id`
entirely when there is no reply header and omits `media_type` entirely
when there is no media, rather than emitting them as null.  Formatting is
total, so it never raises on a missing optional field. -/
theorem C4_optional_fields :
    optStr none = JValue.null ∧
    (∀ u : UserEnt,
      getField (format_entity (Entity.user u)) "first_name" = some (optStr u.first_name) ∧
      getField (format_entity (Entity.user u)) "last_name" = some (optStr u.last_name) ∧
      getField (format_entity (Entity.user u)) "username" = some (optStr u.username) ∧
      getField (format_entity (Entity.user u)) "phone" = some (optStr u.phone)) ∧
    (∀ cn : ChannelEnt,
      getField (format_entity (Entity.channel cn)) "username" = some (optStr cn.username)) ∧
    (∀ m : Message,
      getField (format_message m) "date" = some (optStr m.date) ∧
      getField (format_message m) "text" = some (optStr m.message) ∧
      (m.sender = none → getField (format_message m) "sender_id" = some JValue.null ∧
        getField (format_message m) "sender_name" = some (JValue.str "Unknown")) ∧
      (m.reply_to = none → getField (format_message m) "reply_to_msg_id" = none) ∧
      (m.media = none → getField (format_message m) "media_type" = none ∧
        getField (format_message m) "has_media" = some (JValue.bool false))) := by
  refine ⟨rfl, fun u => ⟨rfl, rfl, rfl, rfl⟩, fun cn => rfl, ?_⟩
  intro m
  obtain ⟨mi, md, mt, mo, ms, mr, mm⟩ := m
  refine ⟨rfl, rfl, ?_, ?_, ?_⟩
  · intro h
    simp only at h
    subst h
    exact ⟨rfl, rfl⟩
  · intro h
    simp only at h
    subst h
    rcases ms with _ | e
    · rcases mm with _ | t <;> rfl
    · cases e <;> rcases mm with _ | t <;> rfl
  · intro h
    simp only at h
    subst h
    rcases ms with _ | e
    · rcases mr with _ | omr
      · exact ⟨rfl, rfl⟩
      · rcases omr with _ | n
        · exact ⟨rfl, rfl⟩
        · by_cases hn : n = 0
          · subst hn
            exact ⟨rfl, rfl⟩
          · rw [show format_message ⟨mi, md, mt, mo, none, some (some n), none⟩
                = [("id", JValue.int mi), ("date", optStr md), ("text", optStr mt),
                   ("out", JValue.bool mo)]
                  ++ sender_fields none
                  ++ [("reply_to_msg_id", JValue.int n)]
                  ++ [("has_media", JValue.bool false)] from by
                simp [format_message, hn]]
            exact ⟨rfl, rfl⟩
    · cases e <;>
      · rcases mr with _ | omr
        · exact ⟨rfl, rfl⟩
        · rcases omr with _ | n
          · exact ⟨rfl, rfl⟩
          · by_cases hn : n = 0
            · subst hn
              exact ⟨rfl, rfl⟩
            · constructor <;>
              · simp [format_message, sender_fields, hn, getField, List.find?]

/-- A message with no reply header and no media: `format_message` omits
`reply_to_msg_id` and `media_type` from the mapping instead of emitting
them as null. -/
def bareMsg : Message := ⟨5, none, some "hi", false, none, none, none⟩

/-- C4, counterexample: for a message without a reply header and without
media, the keys `reply_to_msg_id` and `media_type` are absent from the
emitted mapping (lookup yields `none`), not present with a null value. -/
theorem C4_counterexample :
    getField (format_message bareMsg) "reply_to_msg_id" = none ∧
    getField (format_message bareMsg) "media_type" = none ∧
    getField (format_message bareMsg) "date" = some JValue.null := by
  exact ⟨rfl, rfl, rfl⟩

/-- A user with no name fields set, as on a deleted account. -/
def ghostUser : UserEnt := ⟨99, none, none, none, none, none⟩

/-- A message sent by `ghostUser`. -/
def ghostMsg : Message := ⟨3, none, none, false, some (Entity.user ghostUser), none, none⟩

/-- C4, witness: a user entity with no first name is emitted with
`first_name` present and null, and `bareMsg` omits `reply_to_msg_id`. -/
theorem C4_witness :
    getField (format_entity (Entity.user ghostUser)) "first_name" = some JValue.null ∧
    getField (format_message bareMsg) "reply_to_msg_id" = none := by
  have h := C4_optional_fields
  have h1 := (h.2.1 ghostUser).1
  have h2 := (h.2.2.2 bareMsg).2.2.2.1 rfl
  refine ⟨?_, h2⟩
  rw [h1]
  rfl

/-- C8, amended: `format_message` computes `sender_name` as the trimmed
concatenation `"first last"` when the sender is a user and that trimmed
concatenation is nonempty, as the literal `"Unknown"` (with `sender_id`
still the sender's id) when it is empty, as the sender's title when the
sender is a group/channel, and as `"Unknown"` with `sender_id` null when
the message has no sender. -/
theorem C8_sender_name : ∀ m : Message,
    (m.sender = none →
      getField (format_message m) "sender_name" = some (JValue.str "Unknown") ∧
      getField (format_message m) "sender_id" = some JValue.null) ∧
    (∀ u : UserEnt, m.sender = some (Entity.user u) →
      getField (format_message m) "sender_name" =
        some (JValue.str
          (if pyStrip (u.first_name.getD "" ++ " " ++ u.last_name.getD "") = "" then "Unknown"
           else pyStrip (u.first_name.getD "" ++ " " ++ u.last_name.getD ""))) ∧
      getField (format_message m) "sender_id" = some (JValue.int u.id)) ∧
    (∀ ch : ChatEnt, m.sender = some (Entity.chat ch) →
      getField (format_message m) "sender_name" = some (JValue.str ch.title)) ∧
    (∀ cn : ChannelEnt, m.sender = some (Entity.channel cn) →
      getField (format_message m) "sender_name" = some (JValue.str cn.title)) := by
  intro m
  obtain ⟨mi, md, mt, mo, ms, mr, mm⟩ := m
  refine ⟨?_, ?_, ?_, ?_⟩
  · intro h
    simp only at h
    subst h
    exact ⟨rfl, rfl⟩
  · intro u h
    simp only at h
    subst h
    exact ⟨rfl, rfl⟩
  · intro ch h
    simp only at h
    subst h
    rfl
  · intro cn h
    simp only at h
    subst h
    rfl

/-- C8, counterexample: for a user sender whose name fields are absent,
the trimmed concatenation is the empty string, but the code emits the
literal `"Unknown"` instead of that trimmed concatenation. -/
theorem C8_counterexample :
    getField (format_message ghostMsg) "sender_name" = some (JValue.str "Unknown") ∧
    pyStrip ((ghostUser.first_name.getD "") ++ " " ++ (ghostUser.last_name.getD "")) = "" ∧
    ("Unknown" : String) ≠ "" := by
  exact ⟨rfl, by decide, by decide⟩

/-- A user with `first="Ada"` and `last=""`, as in the spec's example. -/
def adaUser : UserEnt := ⟨1, some "Ada", some "", some "ada", none, none⟩

/-- A message sent by `adaUser`. -/
def adaMsg : Message := ⟨4, none, some "hello", false, some (Entity.user adaUser), none, none⟩

/-- C8, witness: `first="Ada"`, `last=""` yields `sender_name = "Ada"`,
and a message with no sender yields `"Unknown"` with a null sender id. -/
theorem C8_witness :
    getField (format_message adaMsg) "sender_name" = some (JValue.str "Ada") ∧
    getField (format_message bareMsg) "sender_name" = some (JValue.str "Unknown") ∧
    getField (format_message bareMsg) "sender_id" = some JValue.null := by
  have h1 := ((C8_sender_name adaMsg).2.1 adaUser rfl).1
  have h2 := (C8_sender_name bareMsg).1 rfl
  refine ⟨?_, h2.1, h2.2⟩
  rw [h1]
  rfl

/-- C9, amended: the status classifier checks the five substrings in the
source's order, so a tag containing `"Online"` always maps to `"online"`,
a tag containing `"LastMonth"` maps to `"last_month"` provided no
earlier-checked substring (`Online`, `Recently`, `LastWeek`) occurs in it,
a tag containing none of the five maps to its lower-cased form, the result
is always either one of the five fixed labels or the lower-cased raw tag,
and the response's `raw_status` field preserves the raw tag unchanged. -/
theorem C9_status_mapping : ∀ tag : String,
    (containsSub tag "Online" = true → parse_status tag = "online") ∧
    (containsSub tag "Online" = false → containsSub tag "Recently" = false →
     containsSub tag "LastWeek" = false → containsSub tag "LastMonth" = true →
     parse_status tag = "last_month") ∧
    (containsSub tag "Online" = false → containsSub tag "Recently" = false →
     containsSub tag "LastWeek" = false → containsSub tag "LastMonth" = false →
     containsSub tag "Offline" = false → parse_status tag = pyLower tag) ∧
    (parse_status tag = "online" ∨ parse_status tag = "recently" ∨
     parse_status tag = "last_week" ∨ parse_status tag = "last_month" ∨
     parse_status tag = "offline" ∨ parse_status tag = pyLower tag) ∧
    (∀ u : UserEnt, u.status = some tag →
      getField (status_body (Entity.user u)) "raw_status" = some (JValue.str tag) ∧
      getField (status_body (Entity.user u)) "status" =
        some (JValue.str (parse_status tag))) := by
  intro tag
  refine ⟨?_, ?_, ?_, ?_, ?_⟩
  · intro h
    simp [parse_status, h]
  · intro h1 h2 h3 h4
    simp [parse_status, h1, h2, h3, h4]
  · intro h1 h2 h3 h4 h5
    simp [parse_status, h1, h2, h3, h4, h5]
  · unfold parse_status
    split_ifs <;> tauto
  · intro u hu
    constructor <;> simp [status_body, statusTag, hu, getField, List.find?]

/-- C9, counterexample: a tag containing `"LastMonth"` does not always map
to `"last_month"` — when it also contains `"Online"`, the earlier check
wins and it maps to `"online"`. -/
theorem C9_counterexample :
    containsSub "UserStatusOnlineLastMonth" "LastMonth" = true ∧
    parse_status "UserStatusOnlineLastMonth" = "online" ∧
    ("online" : String) ≠ "last_month" := by
  exact ⟨by decide, by decide, by decide⟩

/-- A user whose raw status tag is the unrecognized `"Foo"`. -/
def fooUser : UserEnt := ⟨42, some "F", none, none, none, some "Foo"⟩

/-- C9, witness: the unrecognized tag `"Foo"` maps to `"foo"` and is
preserved unchanged in `raw_status`. -/
theorem C9_witness :
    parse_status "Foo" = "foo" ∧
    getField (status_body (Entity.user fooUser)) "raw_status" = some (JValue.str "Foo") := by
  have h := C9_status_mapping "Foo"
  refine ⟨?_, ((h.2.2.2.2) fooUser rfl).1⟩
  have h5 := h.2.2.1 (by decide) (by decide) (by decide) (by decide) (by decide)
  rw [h5]
  decide

/-- C10, confirmed: `offset_id=0` on GET messages and `reply_to=0` on POST
messages behave exactly as if the parameter were omitted — the handlers
forward these optional values only when truthy, so the whole computation,
external calls included, is identical. -/
theorem C10_zero_treated_as_omitted :
    (∀ (c : Client) (p : ChatIdParam) (limit : Int) (w : World),
      get_messages c p limit (some 0) w = get_messages c p limit none w) ∧
    (∀ (c : Client) (p : ChatIdParam) (text : String) (w : World),
      send_message c p ⟨text, some 0⟩ w = send_message c p ⟨text, none⟩ w) := by
  constructor <;> intros <;> rfl

/-! ## Claims about the handlers -/

theorem runHandler_ok (m : HM JValue) (w : World) (v : JValue)
    (h : (m w).1 = Except.ok v) : (runHandler m w).1 = ⟨200, v⟩ := by
  rcases hm : m w with ⟨r, w1⟩
  rw [hm] at h
  cases r with
  | error e => simp at h
  | ok v2 =>
      simp at h
      subst h
      unfold runHandler
      rw [hm]

/-- C2, confirmed: a request with `limit` over the documented maximum 100
is rejected by parameter validation with HTTP 422 and the world — in
particular the external-call trace — is untouched, so an overlarge limit
is never forwarded; and with `limit=0`, provided the external client
honours the limit (returns at most `limit` messages), every successful
response carries an empty `messages` list and `count` 0. -/
theorem C2_limit_clamp_and_zero (c : Client) (p : ChatIdParam) (off : Option Int) (w : World)
    (hcl : ∀ e o s l, c.messages e 0 o s = Except.ok l → l = []) :
    (∀ limit : Int, 100 < limit →
      get_messages_endpoint c p limit off w = (val422, w)) ∧
    ((get_messages_endpoint c p 0 off w).1.status = 200 →
      (get_messages_endpoint c p 0 off w).1.body =
        JValue.obj [("messages", JValue.arr []), ("count", JValue.int 0)]) := by
  constructor
  · intro limit hl
    unfold get_messages_endpoint
    rw [if_neg (by omega)]
  · have hend : get_messages_endpoint c p 0 off w
        = runHandler (get_messages c p 0 off) w := by
      unfold get_messages_endpoint
      rw [if_pos (by norm_num)]
    rw [hend]
    rcases hr : resolve_ref p with e | ref
    · have h1 : (get_messages c p 0 off w).1 = Except.error e := by
        simp [get_messages, hm_bind_apply, resolve_entity, hr, raiseHM]
      intro habs
      rw [handler500_all _ w e h1] at habs
      norm_num at habs
    · rcases hce : c.entity ref with e | en
      · have h1 : (get_messages c p 0 off w).1 = Except.error e := by
          simp [get_messages, hm_bind_apply, resolve_entity, hr, callExt, hce]
        intro habs
        rw [handler500_all _ w e h1] at habs
        norm_num at habs
      · rcases hcm : c.messages en 0 (truthyOptInt off) none with e | msgs
        · have h1 : (get_messages c p 0 off w).1 = Except.error e := by
            simp [get_messages, hm_bind_apply, resolve_entity, hr, callExt, hce, hcm]
          intro habs
          rw [handler500_all _ w e h1] at habs
          norm_num at habs
        · have hnil : msgs = [] := hcl en (truthyOptInt off) none msgs hcm
          subst hnil
          have h1 : (get_messages c p 0 off w).1 = Except.ok (messagesBody []) := by
            simp [get_messages, hm_bind_apply, hm_pure_apply, resolve_entity, hr,
              callExt, hce, hcm]
          intro _
          rw [runHandler_ok _ _ _ h1]
          rfl

/-- C2, witness: on a client that returns no messages, `limit=1000` is
rejected with 422 and no call is forwarded, and `limit=0` yields an empty
list with count 0. -/
theorem C2_witness :
    get_messages_endpoint okClient (ChatIdParam.int 1) 1000 none World.init
      = (val422, World.init) ∧
    (get_messages_endpoint okClient (ChatIdParam.int 1) 0 none World.init).1.body =
      JValue.obj [("messages", JValue.arr []), ("count", JValue.int 0)] := by
  have h := C2_limit_clamp_and_zero okClient (ChatIdParam.int 1) none World.init
    (fun e o s l hl => by
      simp [okClient] at hl
      exact hl)
  exact ⟨h.1 1000 (by norm_num), h.2 rfl⟩

/-- C5, amended: no handler retries — each issues a fixed, loop-free
sequence of external calls, bounded whatever the oracle answers — and
every handler issues at most two external calls (identifier resolutions
included), except the forward handler, which issues three: two
resolutions and one forward call. -/
theorem C5_call_bounds :
    (∀ c : Client, TraceBound (health_check c) 2) ∧
    (∀ c : Client, TraceBound (get_me c) 2) ∧
    (∀ (c : Client) (limit : Int) (ct : Option String), TraceBound (get_chats c limit ct) 2) ∧
    (∀ (c : Client) (p : ChatIdParam), TraceBound (get_chat c p) 2) ∧
    (∀ (c : Client) (p : ChatIdParam) (limit : Int) (off : Option Int),
      TraceBound (get_messages c p limit off) 2) ∧
    (∀ (c : Client) (p : ChatIdParam) (req : SendMessageRequest),
      TraceBound (send_message c p req) 2) ∧
    (∀ (c : Client) (p : ChatIdParam) (cap : Option String) (v : Bool),
      TraceBound (send_file c p cap v) 2) ∧
    (∀ c : Client, TraceBound (get_contacts c) 2) ∧
    (∀ (c : Client) (q : String), TraceBound (search_contacts c q) 2) ∧
    (∀ (c : Client) (p : ChatIdParam) (limit : Int), TraceBound (get_history c p limit) 2) ∧
    (∀ (c : Client) (p : ChatIdParam) (mid : Int) (req : ReactionRequest),
      TraceBound (send_reaction c p mid req) 2) ∧
    (∀ (c : Client) (p : ChatIdParam) (mid : Int) (req : SendMessageRequest),
      TraceBound (reply_to_message c p mid req) 2) ∧
    (∀ (c : Client) (p : ChatIdParam) (mid : Int) (req : EditMessageRequest),
      TraceBound (edit_message c p mid req) 2) ∧
    (∀ (c : Client) (p : ChatIdParam) (mid : Int), TraceBound (delete_message c p mid) 2) ∧
    (∀ (c : Client) (p : ChatIdParam) (mid : Int) (toP : ChatIdParam),
      TraceBound (forward_message c p mid toP) 3) ∧
    (∀ (c : Client) (p : ChatIdParam), TraceBound (mark_as_read c p) 2) ∧
    (∀ (c : Client) (p : ChatIdParam) (mid : Int), TraceBound (pin_message c p mid) 2) ∧
    (∀ (c : Client) (p : ChatIdParam) (q : String) (limit : Int),
      TraceBound (search_messages c p q limit) 2) ∧
    (∀ (c : Client) (p : ChatIdParam), TraceBound (get_user_status c p) 2) ∧
    (∀ (c : Client) (p : ChatIdParam) (limit : Int), TraceBound (get_user_photos c p limit) 2) ∧
    (∀ (c : Client) (q : String) (limit : Int), TraceBound (search_gifs c q limit) 2) :=
  ⟨fun c => tb_mono (tb_health c) (by omega),
   fun c => tb_mono (tb_get_me c) (by omega),
   fun c limit ct => tb_mono (tb_get_chats c limit ct) (by omega),
   fun c p => tb_mono (tb_get_chat c p) (by omega),
   fun c p limit off => tb_get_messages c p limit off,
   fun c p req => tb_send_message c p req,
   fun c p cap v => tb_send_file c p cap v,
   fun c => tb_mono (tb_get_contacts c) (by omega),
   fun c q => tb_mono (tb_search_contacts c q) (by omega),
   fun c p limit => tb_get_history c p limit,
   fun c p mid req => tb_send_reaction c p mid req,
   fun c p mid req => tb_reply c p mid req,
   fun c p mid req => tb_edit c p mid req,
   fun c p mid => tb_delete c p mid,
   fun c p mid toP => tb_forward c p mid toP,
   fun c p => tb_mark_read c p,
   fun c p mid => tb_pin c p mid,
   fun c p q limit => tb_search_messages c p q limit,
   fun c p => tb_mono (tb_get_user_status c p) (by omega),
   fun c p limit => tb_get_user_photos c p limit,
   fun c q limit => tb_mono (tb_search_gifs c q limit) (by omega)⟩

/-- C5, counterexample: on an all-success oracle the forward handler
issues three external calls — two resolutions and the forward — which is
more than the claimed bound of two. -/
theorem C5_counterexample :
    ((forward_message okClient (ChatIdParam.int 1) 5 (ChatIdParam.int 2))
        World.init).2.trace.length = 3 ∧
    ¬(3 ≤ 2) := ⟨rfl, by omega⟩

/-- C6, confirmed: on every exit path of the file-upload handler — the
external send succeeding or raising, and resolution failing before the
staging — the staged temporary file is absent when the handler returns;
and on a successful run the file was actually created (and then deleted). -/
theorem C6_temp_file_deleted :
    (∀ (c : Client) (p : ChatIdParam) (cap : Option String) (v : Bool)
        (t : List ExtCall) (tc : Bool),
      (((send_file c p cap v) ⟨t, false, tc⟩).2).tempExists = false) ∧
    (((send_file okClient (ChatIdParam.int 1) none false) World.init).2.tempCreated = true ∧
     ((send_file okClient (ChatIdParam.int 1) none false) World.init).2.tempExists = false) := by
  constructor
  · intro c p cap v t tc
    rcases hr : resolve_ref p with e | ref
    · simp [send_file, hm_bind_apply, resolve_entity, hr, raiseHM]
    · rcases hce : c.entity ref with e | en
      · simp [send_file, hm_bind_apply, resolve_entity, hr, callExt, hce]
      · simp [send_file, hm_bind_apply, hm_pure_apply, resolve_entity, hr, callExt, hce,
          mkTemp, tryFinallyHM, clearTemp]
  · exact ⟨rfl, rfl⟩

/-- C7, confirmed: for every endpoint handler, any exception raised during
it (by identifier resolution or the external client) surfaces as HTTP 500
whose body's `detail` field is exactly the exception's message, and no
handler ever issues a `disconnect` call, so the client connection stays
open for subsequent requests. -/
theorem C7_error_surface :
    (∀ c : Client, Handler500 (health_check c) ∧ NoDisconnect (health_check c)) ∧
    (∀ c : Client, Handler500 (get_me c) ∧ NoDisconnect (get_me c)) ∧
    (∀ (c : Client) (limit : Int) (ct : Option String),
      Handler500 (get_chats c limit ct) ∧ NoDisconnect (get_chats c limit ct)) ∧
    (∀ (c : Client) (p : ChatIdParam), Handler500 (get_chat c p) ∧ NoDisconnect (get_chat c p)) ∧
    (∀ (c : Client) (p : ChatIdParam) (limit : Int) (off : Option Int),
      Handler500 (get_messages c p limit off) ∧ NoDisconnect (get_messages c p limit off)) ∧
    (∀ (c : Client) (p : ChatIdParam) (req : SendMessageRequest),
      Handler500 (send_message c p req) ∧ NoDisconnect (send_message c p req)) ∧
    (∀ (c : Client) (p : ChatIdParam) (cap : Option String) (v : Bool),
      Handler500 (send_file c p cap v) ∧ NoDisconnect (send_file c p cap v)) ∧
    (∀ c : Client, Handler500 (get_contacts c) ∧ NoDisconnect (get_contacts c)) ∧
    (∀ (c : Client) (q : String),
      Handler500 (search_contacts c q) ∧ NoDisconnect (search_contacts c q)) ∧
    (∀ (c : Client) (p : ChatIdParam) (limit : Int),
      Handler500 (get_history c p limit) ∧ NoDisconnect (get_history c p limit)) ∧
    (∀ (c : Client) (p : ChatIdParam) (mid : Int) (req : ReactionRequest),
      Handler500 (send_reaction c p mid req) ∧ NoDisconnect (send_reaction c p mid req)) ∧
    (∀ (c : Client) (p : ChatIdParam) (mid : Int) (req : SendMessageRequest),
      Handler500 (reply_to_message c p mid req) ∧ NoDisconnect (reply_to_message c p mid req)) ∧
    (∀ (c : Client) (p : ChatIdParam) (mid : Int) (req : EditMessageRequest),
      Handler500 (edit_message c p mid req) ∧ NoDisconnect (edit_message c p mid req)) ∧
    (∀ (c : Client) (p : ChatIdParam) (mid : Int),
      Handler500 (delete_message c p mid) ∧ NoDisconnect (delete_message c p mid)) ∧
    (∀ (c : Client) (p : ChatIdParam) (mid : Int) (toP : ChatIdParam),
      Handler500 (forward_message c p mid toP) ∧ NoDisconnect (forward_message c p mid toP)) ∧
    (∀ (c : Client) (p : ChatIdParam),
      Handler500 (mark_as_read c p) ∧ NoDisconnect (mark_as_read c p)) ∧
    (∀ (c : Client) (p : ChatIdParam) (mid : Int),
      Handler500 (pin_message c p mid) ∧ NoDisconnect (pin_message c p mid)) ∧
    (∀ (c : Client) (p : ChatIdParam) (q : String) (limit : Int),
      Handler500 (search_messages c p q limit) ∧ NoDisconnect (search_messages c p q limit)) ∧
    (∀ (c : Client) (p : ChatIdParam),
      Handler500 (get_user_status c p) ∧ NoDisconnect (get_user_status c p)) ∧
    (∀ (c : Client) (p : ChatIdParam) (limit : Int),
      Handler500 (get_user_photos c p limit) ∧ NoDisconnect (get_user_photos c p limit)) ∧
    (∀ (c : Client) (q : String) (limit : Int),
      Handler500 (search_gifs c q limit) ∧ NoDisconnect (search_gifs c q limit)) :=
  ⟨fun c => ⟨handler500_all _, noDisc_of_tb (tb_health c)⟩,
   fun c => ⟨handler500_all _, noDisc_of_tb (tb_get_me c)⟩,
   fun c limit ct => ⟨handler500_all _, noDisc_of_tb (tb_get_chats c limit ct)⟩,
   fun c p => ⟨handler500_all _, noDisc_of_tb (tb_get_chat c p)⟩,
   fun c p limit off => ⟨handler500_all _, noDisc_of_tb (tb_get_messages c p limit off)⟩,
   fun c p req => ⟨handler500_all _, noDisc_of_tb (tb_send_message c p req)⟩,
   fun c p cap v => ⟨handler500_all _, noDisc_of_tb (tb_send_file c p cap v)⟩,
   fun c => ⟨handler500_all _, noDisc_of_tb (tb_get_contacts c)⟩,
   fun c q => ⟨handler500_all _, noDisc_of_tb (tb_search_contacts c q)⟩,
   fun c p limit => ⟨handler500_all _, noDisc_of_tb (tb_get_history c p limit)⟩,
   fun c p mid req => ⟨handler500_all _, noDisc_of_tb (tb_send_reaction c p mid req)⟩,
   fun c p mid req => ⟨handler500_all _, noDisc_of_tb (tb_reply c p mid req)⟩,
   fun c p mid req => ⟨handler500_all _, noDisc_of_tb (tb_edit c p mid req)⟩,
   fun c p mid => ⟨handler500_all _, noDisc_of_tb (tb_delete c p mid)⟩,
   fun c p mid toP => ⟨handler500_all _, noDisc_of_tb (tb_forward c p mid toP)⟩,
   fun c p => ⟨handler500_all _, noDisc_of_tb (tb_mark_read c p)⟩,
   fun c p mid => ⟨handler500_all _, noDisc_of_tb (tb_pin c p mid)⟩,
   fun c p q limit => ⟨handler500_all _, noDisc_of_tb (tb_search_messages c p q limit)⟩,
   fun c p => ⟨handler500_all _, noDisc_of_tb (tb_get_user_status c p)⟩,
   fun c p limit => ⟨handler500_all _, noDisc_of_tb (tb_get_user_photos c p limit)⟩,
   fun c q limit => ⟨handler500_all _, noDisc_of_tb (tb_search_gifs c q limit)⟩⟩

/-- C7, witness: on a client whose `get_me` raises a flood-wait error, the
`/me` endpoint responds 500 with exactly that message in `detail`. -/
theorem C7_witness :
    (runHandler (get_me failingClient) World.init).1 =
      ⟨500, JValue.obj [("detail", JValue.str "FloodWaitError: wait of 42 seconds")]⟩ :=
  (C7_error_surface.2.1 failingClient).1 World.init "FloodWaitError: wait of 42 seconds" rfl

end Tg
